import Mathlib

/-!
Verification of the client-side brain-scan upload workflow
(`src/app/page.tsx` together with the shared types in `types/index.ts`).

The embedding follows the source closely:

* `validateFile` mirrors the validator at `page.tsx:37-48`.
* Object-preview URLs are modelled by a `PreviewEnv` holding the set of
  currently live handles; `createObjectURL` / `revokeObjectURL` are the
  browser primitives.
* `handleFileSelection` (`page.tsx:55-73`), `resetForm` (`page.tsx:90-98`),
  `updateProgress` (`page.tsx:100-102`) and the async `handleSubmit`
  (`page.tsx:104-150`) are embedded as pure state transformers on an
  explicit session state.  The `setInterval` progress ticker is modelled by
  an `intervalActive` flag plus the progress value captured by the
  callback's closure (React state variables are render-time snapshots, so
  the callback keeps seeing the value of `uploadStatus.progress` from the
  render in which `handleSubmit` ran).
* The resolution of the `fetch` is modelled by a `NetOutcome`: the promise
  rejects, or resolves with a non-ok status and a parsed `APIError` body,
  or resolves ok with a parsed `PredictionResponse` body.
-/

/-- Raw substring test on character lists: does `l` start with `pat`?
Mirrors the semantics of JavaScript `String.prototype.includes` together
with `containsSeg` below. -/
def startsWithL : List Char → List Char → Bool
  | _, [] => true
  | [], _ :: _ => false
  | a :: as, b :: bs => a == b && startsWithL as bs

/-- Substring occurrence test on character lists. -/
def containsSeg : List Char → List Char → Bool
  | [], pat => pat.isEmpty
  | l@(_ :: rest), pat => startsWithL l pat || containsSeg rest pat

/-- JavaScript `s.includes(pat)`: `pat` occurs as a contiguous substring
of `s`. -/
def includesStr (s pat : String) : Bool :=
  containsSeg s.data pat.data

/-- Candidate file descriptor: the declared media type and byte size of a
browser `File` object.  Nothing else about the file is inspected by the
client code. -/
structure FileDesc where
  type : String
  size : Nat
deriving DecidableEq

/-- `ValidationResult` from `types/index.ts`. -/
structure ValidationResult where
  isValid : Bool
  error : Option String
deriving DecidableEq

/-- `MAX_FILE_SIZE` constant, `page.tsx:13`. -/
def MAX_FILE_SIZE : Nat := 5 * 1024 * 1024

/-- `ACCEPTED_IMAGE_TYPES` constant, `page.tsx:14`. -/
def ACCEPTED_IMAGE_TYPES : List String := ["image/jpeg", "image/png", "image/gif"]

/-- `validateFile`, `page.tsx:37-48`.  The TypeScript parameter is typed
`File` but callers can hand it `undefined` (`e.dataTransfer.files[0]`), and
the body starts with an `if (!file)` presence check, so the argument is an
`Option FileDesc`. -/
def validateFile : Option FileDesc → ValidationResult
  | none => ⟨false, some "Please select a file"⟩
  | some file =>
    if !(ACCEPTED_IMAGE_TYPES.contains file.type) then
      ⟨false, some "Please upload a valid image file (JPEG, PNG, or GIF)"⟩
    else if file.size > MAX_FILE_SIZE then
      ⟨false, some "File size must be less than 5MB"⟩
    else ⟨true, none⟩

/-- `PredictionResponse` from `types/index.ts`. -/
structure PredictionResponse where
  success : Bool
  prediction : String
  confidence_class : Int
  message : String
deriving DecidableEq

/-- `APIError` from `types/index.ts`. -/
structure APIError where
  error : String
  message : String
deriving DecidableEq

/-- Variant accepted by the toast notification collaborator. -/
inductive ToastVariant where
  | default
  | destructive
deriving DecidableEq

/-- One notification handed to the `toast` collaborator. -/
structure Toast where
  title : String
  description : String
  variant : ToastVariant
deriving DecidableEq

/-- `UploadStatus` from `types/index.ts`: `isLoading` plays the role of the
`submitting` phase flag, `progress` is the simulated percentage, and the
optional `error` field exists in the type but is never populated by
`page.tsx`. -/
structure UploadStatus where
  isLoading : Bool
  progress : Nat
  error : Option String
deriving DecidableEq

/-- Environment of live object-preview URLs.  `live` is the multiset of
handles created by `createObjectURL` and not yet revoked; `next` is a
fresh-name supply. -/
structure PreviewEnv where
  live : List Nat
  next : Nat
deriving DecidableEq

/-- Browser `URL.createObjectURL`: mints a fresh handle and makes it live. -/
def createObjectURL (e : PreviewEnv) : Nat × PreviewEnv :=
  (e.next, ⟨e.next :: e.live, e.next + 1⟩)

/-- Browser `URL.revokeObjectURL`: releases a handle.  Revoking an already
revoked handle is a no-op on the live set. -/
def revokeObjectURL (h : Nat) (e : PreviewEnv) : PreviewEnv :=
  ⟨e.live.erase h, e.next⟩

/-- The component's React state (`page.tsx:19-25`) together with the
object-URL environment the component mutates through the browser API. -/
structure AppState where
  selectedFile : Option FileDesc
  preview : Option Nat
  predictionResult : Option PredictionResponse
  uploadStatus : UploadStatus
  env : PreviewEnv
deriving DecidableEq

/-- `handleFileSelection`, `page.tsx:55-73`.  Returns the updated state and
the notifications this single call raises.  On a rejected file the only
effect is the destructive "Invalid File" toast; on an accepted file the old
preview handle is revoked first, then a fresh one is created, the selection
is replaced and the prior prediction result is cleared. -/
def handleFileSelection (a : AppState) (file : Option FileDesc) : AppState × List Toast :=
  let v := validateFile file
  if !v.isValid then
    (a, [⟨"Invalid File", v.error.getD "", ToastVariant.destructive⟩])
  else
    match file with
    | none => (a, [])
    | some f =>
      let env1 := match a.preview with
        | some h => revokeObjectURL h a.env
        | none => a.env
      let p := createObjectURL env1
      ({ a with
          selectedFile := some f
          preview := some p.1
          predictionResult := none
          env := p.2 }, [])

/-- `resetForm`, `page.tsx:90-98`: revoke the live preview handle if one
exists, clear the selection, the preview and the prediction result, and
reset the upload status to idle with progress 0.  It is a synchronous
handler: no timer is involved. -/
def resetForm (a : AppState) : AppState :=
  let env1 := match a.preview with
    | some h => revokeObjectURL h a.env
    | none => a.env
  { selectedFile := none
    preview := none
    predictionResult := none
    uploadStatus := ⟨false, 0, none⟩
    env := env1 }

/-- One in-flight submission together with the component state.
`intervalActive` records whether the `setInterval` ticker started at
`page.tsx:109` is still scheduled; `capturedProgress` is the value of
`uploadStatus.progress` that the interval callback closed over (the React
render snapshot at the moment `handleSubmit` ran); `toasts` accumulates
the notifications raised; `requests` counts network requests issued;
`resetDelay` records a pending `setTimeout` delay, in milliseconds, for
the cosmetic progress reset scheduled in the `finally` block. -/
structure Session where
  app : AppState
  intervalActive : Bool
  capturedProgress : Nat
  toasts : List Toast
  requests : Nat
  resetDelay : Option Nat
deriving DecidableEq

/-- Synchronous head of `handleSubmit`, `page.tsx:104-120`: the
`if (!selectedFile) return` guard, then
`setUploadStatus({ isLoading: true, progress: 0 })`, the start of the
progress `setInterval` (whose callback closes over the render-time value
of `uploadStatus.progress`), and the dispatch of the `fetch` request. -/
def handleSubmitStart (s : Session) : Session :=
  match s.app.selectedFile with
  | none => s
  | some _ =>
    { s with
        app := { s.app with uploadStatus := ⟨true, 0, none⟩ }
        intervalActive := true
        capturedProgress := s.app.uploadStatus.progress
        requests := s.requests + 1 }

/-- `disabled={!selectedFile || uploadStatus.isLoading}` on the submit
button, `page.tsx:226`. -/
def submitDisabled (s : Session) : Bool :=
  s.app.selectedFile.isNone || s.app.uploadStatus.isLoading

/-- The user-level submit action: clicking the "Begin Analysis" button
(`page.tsx:224-226`).  A disabled button fires no click handler, so the
action runs `handleSubmitStart` only when the button is enabled. -/
def clickSubmit (s : Session) : Session :=
  if submitDisabled s then s else handleSubmitStart s

/-- `updateProgress`, `page.tsx:100-102`: functional state update setting
`progress` to `Math.min(progress, 90)` for the argument passed in. -/
def updateProgress (p : Nat) (u : UploadStatus) : UploadStatus :=
  { u with progress := min p 90 }

/-- One firing of the progress interval callback, `page.tsx:109-111`:
`updateProgress(uploadStatus.progress + 5)`, where `uploadStatus.progress`
is the stale closure value captured when the submission started.  Fires
only while the interval is scheduled. -/
def tick (s : Session) : Session :=
  if s.intervalActive then
    { s with app := { s.app with
        uploadStatus := updateProgress (s.capturedProgress + 5) s.app.uploadStatus } }
  else s

/-- How the network exchange of one submission resolves: the `fetch`
promise rejects (carrying an `Error` message, or some non-`Error` value),
or it resolves with a non-ok HTTP status and a parsed `APIError` body, or
it resolves ok with a parsed `PredictionResponse` body. -/
inductive NetOutcome where
  | transportError (msg : Option String)
  | httpError (body : APIError)
  | httpOk (body : PredictionResponse)
deriving DecidableEq

/-- Shared `catch` block of `handleSubmit`, `page.tsx:138-145`: raise the
destructive "Analysis Failed" toast with the error message and clear the
prediction result. -/
def catchBlock (em : String) (s : Session) : Session :=
  { s with
      toasts := s.toasts ++ [⟨"Analysis Failed", em, ToastVariant.destructive⟩]
      app := { s.app with predictionResult := none } }

/-- Shared `finally` block of `handleSubmit`, `page.tsx:146-149`: end the
loading phase and schedule the cosmetic progress reset 1000 ms out. -/
def finallyBlock (s : Session) : Session :=
  { s with
      app := { s.app with
        uploadStatus := { s.app.uploadStatus with isLoading := false } }
      resetDelay := some 1000 }

/-- Resolution of the awaited `fetch`, `page.tsx:113-150`.

* If the promise rejects, control jumps straight from the `await` into the
  `catch` block: `clearInterval` is never executed and the progress is not
  touched.  The message is `error.message` when an `Error` was thrown,
  otherwise the generic fallback string.
* If the response arrives, `clearInterval(progressInterval)` runs and
  progress is forced to 100.  A non-ok status then throws
  `new Error(errorData.message || 'Analysis failed')` into the `catch`
  block (JavaScript `||` falls back on the empty string).
* An ok status stores the parsed body as the prediction result and raises
  the "Analysis Complete" toast whose variant is chosen by the body's
  boolean `success` field.

All paths end in the `finally` block. -/
def resolveFetch (s : Session) (o : NetOutcome) : Session :=
  match o with
  | .transportError msg =>
    finallyBlock (catchBlock
      (msg.getD "Unable to process the brain scan. Please try again.") s)
  | .httpError body =>
    let s1 := { s with
        intervalActive := false
        app := { s.app with
          uploadStatus := { s.app.uploadStatus with progress := 100 } } }
    let em := if body.message = "" then "Analysis failed" else body.message
    finallyBlock (catchBlock em s1)
  | .httpOk data =>
    let s1 := { s with
        intervalActive := false
        app := { s.app with
          uploadStatus := { s.app.uploadStatus with progress := 100 } } }
    let s2 := { s1 with
        app := { s1.app with predictionResult := some data }
        toasts := s1.toasts ++ [⟨"Analysis Complete", data.message,
          if data.success then ToastVariant.default else ToastVariant.destructive⟩] }
    finallyBlock s2

/-- The `setTimeout` body scheduled in the `finally` block,
`page.tsx:148`: `setUploadStatus(prev => ({ ...prev, progress: 0 }))` — a
functional update that rewrites only the `progress` field. -/
def delayedProgressReset (a : AppState) : AppState :=
  { a with uploadStatus := { a.uploadStatus with progress := 0 } }

/-- Alert variant chosen when rendering a prediction result,
`page.tsx:258`: driven by `prediction.includes("No tumor")`. -/
def alertVariant (r : PredictionResponse) : ToastVariant :=
  if includesStr r.prediction "No tumor" then ToastVariant.default
  else ToastVariant.destructive

/-- Alert title chosen when rendering a prediction result,
`page.tsx:265-269`. -/
def alertTitle (r : PredictionResponse) : String :=
  if includesStr r.prediction "No tumor" then "No Tumor Detected"
  else "Tumor Detected"

/-- Confidence label rendered at `page.tsx:281`. -/
def confidenceLabel (r : PredictionResponse) : String :=
  if r.confidence_class = 1 then "High" else "Low"

/-- Toast variant chosen by `handleSubmit` for a transport-successful
response, `page.tsx:136`: driven by the boolean `success` field. -/
def toastVariantFor (data : PredictionResponse) : ToastVariant :=
  if data.success then ToastVariant.default else ToastVariant.destructive

/-- The operations that touch the preview handle: a file selection
(`handleFileSelection`, which on a valid file performs the
release-then-create `setPreview` sequence of `page.tsx:66-71`) and the
manual reset (`resetForm`, which performs the `clearPreview` release of
`page.tsx:91-95`). -/
inductive PreviewOp where
  | select (f : Option FileDesc)
  | clear
deriving DecidableEq

/-- Run one preview-touching operation on the component state. -/
def runPreviewOp (a : AppState) : PreviewOp → AppState
  | .select f => (handleFileSelection a f).1
  | .clear => resetForm a

/-- Run a sequence of preview-touching operations. -/
def runPreviewOps (a : AppState) : List PreviewOp → AppState
  | [] => a
  | op :: ops => runPreviewOps (runPreviewOp a op) ops

/-- Preview-lifecycle invariant: the live object URLs are exactly the one
referenced by the `preview` state variable (so in particular there is at
most one). -/
def previewInv (a : AppState) : Prop :=
  a.env.live = a.preview.toList

/-- A file selection preserves the preview-lifecycle invariant: the old
handle is revoked before the new one is created. -/
theorem previewInv_select (a : AppState) (f : Option FileDesc)
    (h : previewInv a) : previewInv (handleFileSelection a f).1 := by
  unfold previewInv at h ⊢
  by_cases hv : (validateFile f).isValid
  · cases f with
    | none => simp [handleFileSelection, hv, h]
    | some f' =>
      cases hp : a.preview with
      | none =>
        simp only [hp, Option.toList_none] at h
        simp [handleFileSelection, hv, createObjectURL, hp, h]
      | some hdl =>
        simp only [hp, Option.toList_some] at h
        simp [handleFileSelection, hv, createObjectURL, revokeObjectURL, hp, h,
          List.erase_cons_head]
  · simp only [Bool.not_eq_true] at hv
    simp [handleFileSelection, hv, h]

/-- The manual reset preserves the preview-lifecycle invariant: every live
handle is revoked and the reference cleared. -/
theorem previewInv_clear (a : AppState) (h : previewInv a) :
    previewInv (resetForm a) := by
  unfold previewInv at h ⊢
  unfold resetForm
  cases hp : a.preview with
  | none => simp only [hp, Option.toList_none] at h; simpa using h
  | some hdl =>
    simp only [hp, Option.toList_some] at h
    simp [revokeObjectURL, h]

/-- The preview-lifecycle invariant is preserved by every sequence of
preview-touching operations. -/
theorem previewInv_runOps (ops : List PreviewOp) (a : AppState)
    (h : previewInv a) : previewInv (runPreviewOps a ops) := by
  induction ops generalizing a with
  | nil => exact h
  | cons op ops ih =>
    cases op with
    | select f => exact ih _ (previewInv_select a f h)
    | clear => exact ih _ (previewInv_clear a h)

/-- A sample idle session: one selected PNG, a live preview handle, no
result, nothing in flight. -/
def sampleIdle : Session :=
  ⟨⟨some ⟨"image/png", 1024⟩, some 0, none, ⟨false, 0, none⟩, ⟨[0], 1⟩⟩,
    false, 0, [], 0, none⟩

/-- The sample session right after a submission starts. -/
def sampleSubmitting : Session := handleSubmitStart sampleIdle


/-- Closed form of `validateFile` on a present file: the branch structure
of `page.tsx:41-47` expressed through propositional conditions. -/
theorem validateFile_some (f : FileDesc) :
    validateFile (some f) =
      if f.type ∈ ["image/jpeg", "image/png", "image/gif"] then
        (if f.size ≤ 5242880 then ⟨true, none⟩
         else ⟨false, some "File size must be less than 5MB"⟩)
      else ⟨false, some "Please upload a valid image file (JPEG, PNG, or GIF)"⟩ := by
  by_cases ht : f.type ∈ ["image/jpeg", "image/png", "image/gif"]
  · have hc : ACCEPTED_IMAGE_TYPES.contains f.type = true := List.elem_iff.mpr ht
    by_cases hs : f.size ≤ 5242880
    · have hgt : ¬(f.size > MAX_FILE_SIZE) := by unfold MAX_FILE_SIZE; omega
      simp [validateFile, ACCEPTED_IMAGE_TYPES, hc, ht, hs, hgt]
    · have hgt : f.size > MAX_FILE_SIZE := by unfold MAX_FILE_SIZE; omega
      simp [validateFile, ACCEPTED_IMAGE_TYPES, hc, ht, hs, hgt]
  · have hc : ACCEPTED_IMAGE_TYPES.contains f.type = false :=
      Bool.eq_false_iff.mpr fun hcc => ht (List.elem_iff.mp hcc)
    simp [validateFile, ACCEPTED_IMAGE_TYPES, hc, ht]

/-- C5: `validateFile` accepts a candidate exactly when a file is present,
its declared media type is in the exact set
`{image/jpeg, image/png, image/gif}`, and its byte size is at most
5 * 1024 * 1024 = 5242880 bytes; the size check is a strict greater-than,
so a file of exactly 5242880 bytes is accepted, and each rejection carries
the corresponding reason (missing file, unsupported type, too large). -/
theorem C5_validateFile_spec (cand : Option FileDesc) :
    ((validateFile cand).isValid = true ↔
      ∃ f, cand = some f ∧ f.type ∈ ["image/jpeg", "image/png", "image/gif"]
        ∧ f.size ≤ 5242880) ∧
    (cand = none → validateFile cand = ⟨false, some "Please select a file"⟩) ∧
    (∀ f, cand = some f → f.type ∉ ["image/jpeg", "image/png", "image/gif"] →
      validateFile cand
        = ⟨false, some "Please upload a valid image file (JPEG, PNG, or GIF)"⟩) ∧
    (∀ f, cand = some f → f.type ∈ ["image/jpeg", "image/png", "image/gif"] →
      5242880 < f.size →
      validateFile cand = ⟨false, some "File size must be less than 5MB"⟩) := by
  cases cand with
  | none =>
    refine ⟨by simp [validateFile], fun _ => rfl, ?_, ?_⟩ <;>
      · intro f hf
        cases hf
  | some f =>
    have hv := validateFile_some f
    refine ⟨?_, ?_, ?_, ?_⟩
    · rw [hv]
      by_cases ht : f.type ∈ ["image/jpeg", "image/png", "image/gif"]
      · by_cases hs : f.size ≤ 5242880
        · rw [if_pos ht, if_pos hs]
          exact ⟨fun _ => ⟨f, rfl, ht, hs⟩, fun _ => rfl⟩
        · rw [if_pos ht, if_neg hs]
          constructor
          · intro h
            exact absurd h (by decide)
          · rintro ⟨g, hg, -, hsz⟩
            cases hg
            exact absurd hsz hs
      · rw [if_neg ht]
        constructor
        · intro h
          exact absurd h (by decide)
        · rintro ⟨g, hg, hty, -⟩
          cases hg
          exact absurd hty ht
    · intro h
      cases h
    · intro g hg hty
      cases hg
      rw [hv, if_neg hty]
    · intro g hg hty hsz
      cases hg
      rw [hv, if_pos hty, if_neg (by omega)]

/-- Witness for C5 at concrete inputs: a PNG of exactly 5242880 bytes is
accepted, and a missing file is rejected with the missing-file reason. -/
theorem C5_validateFile_spec_witness :
    (validateFile (some ⟨"image/png", 5242880⟩)).isValid = true ∧
    validateFile none = ⟨false, some "Please select a file"⟩ := by
  constructor
  · exact (C5_validateFile_spec (some ⟨"image/png", 5242880⟩)).1.mpr
      ⟨⟨"image/png", 5242880⟩, rfl, by simp, le_refl _⟩
  · exact (C5_validateFile_spec none).2.1 rfl

/-- C1: triggering the submit action while a submission is already in
flight (`uploadStatus.isLoading = true`, the `submitting` phase) is a
no-op that leaves the entire session unchanged — no new request, no
progress reset, no result clearing.  The guard is the `disabled`
condition on the submit button: a disabled button fires no click. -/
theorem C1_submit_noop_while_inflight (s : Session)
    (h : s.app.uploadStatus.isLoading = true) : clickSubmit s = s := by
  unfold clickSubmit submitDisabled
  simp [h]

/-- Witness for C1: the sample in-flight session is left unchanged by a
further submit click. -/
theorem C1_submit_noop_while_inflight_witness :
    clickSubmit sampleSubmitting = sampleSubmitting :=
  C1_submit_noop_while_inflight sampleSubmitting rfl

/-- Counterexample to C2 as stated: a transport-successful response whose
body carries `success = false` does NOT leave `predictionResult` cleared —
the parsed body is stored, so the result is not `null`. -/
theorem C2_counterexample :
    (resolveFetch sampleSubmitting
        (NetOutcome.httpOk ⟨false, "Glioma detected", 0, "model failed"⟩)).app.predictionResult
      = some ⟨false, "Glioma detected", 0, "model failed"⟩ ∧
    (resolveFetch sampleSubmitting
        (NetOutcome.httpOk ⟨false, "Glioma detected", 0, "model failed"⟩)).app.predictionResult
      ≠ none := by
  refine ⟨rfl, ?_⟩
  intro hc
  rw [show (resolveFetch sampleSubmitting
      (NetOutcome.httpOk ⟨false, "Glioma detected", 0, "model failed"⟩)).app.predictionResult
      = some ⟨false, "Glioma detected", 0, "model failed"⟩ from rfl] at hc
  cases hc

/-- C2 (amended): a transport-successful response whose body carries
`success = false` is handled on the success path: the parsed body is
stored as the prediction result (not cleared), one "Analysis Complete"
notification is raised with the body's message and the destructive
variant, loading ends, progress is forced to 100 and the ticker stops. -/
theorem C2_httpOk_failure_behavior (s : Session) (data : PredictionResponse)
    (h : data.success = false) :
    (resolveFetch s (NetOutcome.httpOk data)).app.predictionResult = some data ∧
    (resolveFetch s (NetOutcome.httpOk data)).toasts
      = s.toasts ++ [⟨"Analysis Complete", data.message, ToastVariant.destructive⟩] ∧
    (resolveFetch s (NetOutcome.httpOk data)).app.uploadStatus.isLoading = false ∧
    (resolveFetch s (NetOutcome.httpOk data)).app.uploadStatus.progress = 100 ∧
    (resolveFetch s (NetOutcome.httpOk data)).intervalActive = false := by
  unfold resolveFetch finallyBlock
  simp [h]

/-- Witness for C2's amended theorem at a concrete failing body. -/
theorem C2_httpOk_failure_behavior_witness :
    (resolveFetch sampleSubmitting
        (NetOutcome.httpOk ⟨false, "x", 0, "bad"⟩)).app.predictionResult
      = some ⟨false, "x", 0, "bad"⟩ ∧
    (resolveFetch sampleSubmitting (NetOutcome.httpOk ⟨false, "x", 0, "bad"⟩)).toasts
      = sampleSubmitting.toasts
        ++ [⟨"Analysis Complete", "bad", ToastVariant.destructive⟩] ∧
    (resolveFetch sampleSubmitting
        (NetOutcome.httpOk ⟨false, "x", 0, "bad"⟩)).app.uploadStatus.isLoading = false ∧
    (resolveFetch sampleSubmitting
        (NetOutcome.httpOk ⟨false, "x", 0, "bad"⟩)).app.uploadStatus.progress = 100 ∧
    (resolveFetch sampleSubmitting
        (NetOutcome.httpOk ⟨false, "x", 0, "bad"⟩)).intervalActive = false :=
  C2_httpOk_failure_behavior sampleSubmitting ⟨false, "x", 0, "bad"⟩ rfl

/-- C3 fails on the transport-rejection path: when the `fetch` promise
rejects, control jumps from the `await` into the `catch` block, so
`clearInterval` never runs and progress is not forced to 100 — after the
terminal state is set the ticker is still scheduled and a further tick
still changes the displayed progress. -/
theorem C3_transport_reject_leaves_ticker :
    (resolveFetch sampleSubmitting (NetOutcome.transportError none)).intervalActive
      = true ∧
    (resolveFetch sampleSubmitting
        (NetOutcome.transportError none)).app.uploadStatus.progress = 0 ∧
    (tick (resolveFetch sampleSubmitting
        (NetOutcome.transportError none))).app.uploadStatus.progress = 5 :=
  ⟨rfl, rfl, rfl⟩

/-- Counterexample to C4 as stated: for the result
`{success := true, prediction := "Glioma detected"}` the visual framing is
adverse (marker absent) while the notification raised by `handleSubmit`
carries the default variant, because the notification variant is driven by
the boolean `success` field, not by the marker substring. -/
theorem C4_counterexample :
    alertVariant ⟨true, "Glioma detected", 0, "ok"⟩ = ToastVariant.destructive ∧
    (resolveFetch sampleSubmitting
        (NetOutcome.httpOk ⟨true, "Glioma detected", 0, "ok"⟩)).toasts
      = [⟨"Analysis Complete", "ok", ToastVariant.default⟩] ∧
    toastVariantFor ⟨true, "Glioma detected", 0, "ok"⟩
      ≠ alertVariant ⟨true, "Glioma detected", 0, "ok"⟩ := by
  refine ⟨by decide, rfl, by decide⟩

/-- C4 (amended): the "No tumor" substring test is the sole discriminator
for the visual framing — alert variant and title depend only on the
predicted label, any label not containing the marker is framed as adverse,
and the boolean `success` field plays no role there — while the
notification variant raised on a transport-successful response is driven
solely by the boolean `success` field. -/
theorem C4_framing_rule (r : PredictionResponse) (s : Session) :
    (alertVariant r = if includesStr r.prediction "No tumor"
      then ToastVariant.default else ToastVariant.destructive) ∧
    (alertTitle r = if includesStr r.prediction "No tumor"
      then "No Tumor Detected" else "Tumor Detected") ∧
    (∀ r' : PredictionResponse, r'.prediction = r.prediction →
      alertVariant r' = alertVariant r ∧ alertTitle r' = alertTitle r) ∧
    (includesStr r.prediction "No tumor" = false →
      alertVariant r = ToastVariant.destructive) ∧
    ((resolveFetch s (NetOutcome.httpOk r)).toasts = s.toasts
      ++ [⟨"Analysis Complete", r.message,
            if r.success then ToastVariant.default else ToastVariant.destructive⟩]) := by
  refine ⟨rfl, rfl, ?_, ?_, rfl⟩
  · intro r' hp
    unfold alertVariant alertTitle
    rw [hp]
    exact ⟨rfl, rfl⟩
  · intro hm
    unfold alertVariant
    rw [hm]
    rfl

/-- Witness for C4's amended theorem: two results sharing the label
"No tumor detected" but differing in `success` get the same benign
framing, and a label without the marker is framed as adverse. -/
theorem C4_framing_rule_witness :
    alertVariant ⟨false, "No tumor detected", 1, "ok"⟩
      = alertVariant ⟨true, "No tumor detected", 1, "ok"⟩ ∧
    alertVariant ⟨true, "Glioma detected", 0, "ok"⟩ = ToastVariant.destructive := by
  constructor
  · exact ((C4_framing_rule ⟨true, "No tumor detected", 1, "ok"⟩ sampleIdle).2.2.1
      ⟨false, "No tumor detected", 1, "ok"⟩ rfl).1
  · exact (C4_framing_rule ⟨true, "Glioma detected", 0, "ok"⟩ sampleIdle).2.2.2.1
      (by decide)

/-- C6 fails on the code: the interval callback closes over the render-time
snapshot of `uploadStatus.progress`, so each tick sets progress to
`min(captured + 5, 90)` rather than incrementing the live value — for a
submission started at progress 0, the first AND the second tick both leave
progress at 5, where the claim requires 10 after two ticks. -/
theorem C6_tick_stuck :
    (tick sampleSubmitting).app.uploadStatus.progress = 5 ∧
    (tick (tick sampleSubmitting)).app.uploadStatus.progress = 5 ∧
    tick (tick sampleSubmitting) = tick sampleSubmitting :=
  ⟨rfl, rfl, rfl⟩

/-- C7: after any sequence of preview-touching operations started in a
state whose live object URLs are exactly the current preview reference, at
most one live handle exists; a selection releases the live handle before
creating the replacement (the preserved invariant), and release is
idempotent — the reset's `clearPreview` with no live handle leaves the
environment untouched, and revoking a handle that is not live is a
no-op. -/
theorem C7_preview_single_handle (ops : List PreviewOp) (a : AppState)
    (h : previewInv a) :
    previewInv (runPreviewOps a ops) ∧
    (runPreviewOps a ops).env.live.length ≤ 1 ∧
    (∀ b : AppState, b.preview = none → (resetForm b).env = b.env) ∧
    (∀ (hdl : Nat) (e : PreviewEnv), hdl ∉ e.live → revokeObjectURL hdl e = e) := by
  have hinv := previewInv_runOps ops a h
  refine ⟨hinv, ?_, ?_, ?_⟩
  · unfold previewInv at hinv
    rw [hinv]
    cases (runPreviewOps a ops).preview <;> simp
  · intro b hb
    simp [resetForm, hb]
  · intro hdl e hm
    unfold revokeObjectURL
    rw [List.erase_of_not_mem hm]

/-- Witness for C7: a sample run consisting of a new selection followed by
two consecutive resets, started from the sample state with one live
handle. -/
theorem C7_preview_single_handle_witness :
    previewInv (runPreviewOps sampleIdle.app
      [PreviewOp.select (some ⟨"image/gif", 7⟩), PreviewOp.clear, PreviewOp.clear]) ∧
    (runPreviewOps sampleIdle.app
      [PreviewOp.select (some ⟨"image/gif", 7⟩), PreviewOp.clear,
        PreviewOp.clear]).env.live.length ≤ 1 ∧
    (∀ b : AppState, b.preview = none → (resetForm b).env = b.env) ∧
    (∀ (hdl : Nat) (e : PreviewEnv), hdl ∉ e.live → revokeObjectURL hdl e = e) :=
  C7_preview_single_handle
    [PreviewOp.select (some ⟨"image/gif", 7⟩), PreviewOp.clear, PreviewOp.clear]
    sampleIdle.app rfl

/-- C8: the delayed reset scheduled on every terminal outcome fires after
1000 ms and rewrites only the `progress` field to 0 — the selected file,
the preview handle, the prediction result, the object-URL environment and
the remaining upload-status fields are untouched. -/
theorem C8_delayed_reset_frame (s : Session) (o : NetOutcome) (a : AppState) :
    (resolveFetch s o).resetDelay = some 1000 ∧
    (delayedProgressReset a).uploadStatus.progress = 0 ∧
    (delayedProgressReset a).selectedFile = a.selectedFile ∧
    (delayedProgressReset a).preview = a.preview ∧
    (delayedProgressReset a).predictionResult = a.predictionResult ∧
    (delayedProgressReset a).env = a.env ∧
    (delayedProgressReset a).uploadStatus.isLoading = a.uploadStatus.isLoading ∧
    (delayedProgressReset a).uploadStatus.error = a.uploadStatus.error := by
  refine ⟨?_, rfl, rfl, rfl, rfl, rfl, rfl, rfl⟩
  cases o <;> rfl

/-- Witness for C8: a concrete failed exchange schedules the 1000 ms
cosmetic reset. -/
theorem C8_delayed_reset_frame_witness :
    (resolveFetch sampleSubmitting
        (NetOutcome.httpError ⟨"x", "boom"⟩)).resetDelay = some 1000 :=
  (C8_delayed_reset_frame sampleSubmitting (NetOutcome.httpError ⟨"x", "boom"⟩)
    sampleIdle.app).1

/-- C9: the manual reset, invoked in any state whose live object URLs are
exactly the current preview reference, immediately releases the live
preview handle, clears the selection and the prediction result, and
resets the upload status to idle with progress 0; being a synchronous
handler it involves no timer. -/
theorem C9_resetForm_clears (a : AppState) (h : previewInv a) :
    (resetForm a).selectedFile = none ∧
    (resetForm a).preview = none ∧
    (resetForm a).predictionResult = none ∧
    (resetForm a).uploadStatus = ⟨false, 0, none⟩ ∧
    (resetForm a).env.live = [] := by
  refine ⟨rfl, rfl, rfl, rfl, ?_⟩
  unfold previewInv at h
  cases hp : a.preview with
  | none =>
    rw [hp, Option.toList_none] at h
    simp [resetForm, hp, h]
  | some hdl =>
    rw [hp, Option.toList_some] at h
    simp [resetForm, revokeObjectURL, hp, h, List.erase_cons_head]

/-- Witness for C9 on the sample state with one live handle. -/
theorem C9_resetForm_clears_witness :
    (resetForm sampleIdle.app).selectedFile = none ∧
    (resetForm sampleIdle.app).preview = none ∧
    (resetForm sampleIdle.app).predictionResult = none ∧
    (resetForm sampleIdle.app).uploadStatus = ⟨false, 0, none⟩ ∧
    (resetForm sampleIdle.app).env.live = [] :=
  C9_resetForm_clears sampleIdle.app rfl

/-- C10: when validation rejects the candidate file, the selection
handler's only effect is the single destructive "Invalid File"
notification carrying the validation reason — the component state
(selection, preview, result, upload status and object-URL environment) is
returned exactly as it was. -/
theorem C10_rejected_selection_frame (a : AppState) (f : Option FileDesc)
    (h : (validateFile f).isValid = false) :
    (handleFileSelection a f).1 = a ∧
    (handleFileSelection a f).2
      = [⟨"Invalid File", (validateFile f).error.getD "",
          ToastVariant.destructive⟩] := by
  unfold handleFileSelection
  simp [h]

/-- Witness for C10: selecting a plain-text file leaves the sample state
untouched and raises exactly the one rejection notification. -/
theorem C10_rejected_selection_frame_witness :
    (handleFileSelection sampleIdle.app (some ⟨"text/plain", 10⟩)).1
      = sampleIdle.app ∧
    (handleFileSelection sampleIdle.app (some ⟨"text/plain", 10⟩)).2
      = [⟨"Invalid File",
          (validateFile (some ⟨"text/plain", 10⟩)).error.getD "",
          ToastVariant.destructive⟩] :=
  C10_rejected_selection_frame sampleIdle.app (some ⟨"text/plain", 10⟩) rfl
